import Mathlib

/-!
Shallow embedding of the ai-inbox-zero core pipeline
(src/ai_agent.py, src/db_manager.py, src/fast_scan.py,
src/ultimate_app.py, src/working_app.py, src/enterprise_app.py)
and proofs about the spec's claims over it.

Python strings are modelled as Lean `String`; Python's `needle in hay`
substring test and `str.lower()` are given executable models below.
Machine-level float timestamps are modelled as `Int` (the rate limiter)
and sleep durations as `Nat` tenths of a second (the store's backoff),
which is exact for the arithmetic the code performs (sums and
differences of the given constants).
External collaborators (the Groq classifier, the Gmail gateway, sqlite)
are oracles: parameters supplying each call's outcome.
-/

namespace InboxZero

/-- `startsWithL hay needle`: `needle` is a prefix of `hay` (on char lists). -/
def startsWithL : List Char → List Char → Bool
  | _, [] => true
  | [], _ :: _ => false
  | h :: hs, n :: ns => h == n && startsWithL hs ns

/-- `strHasL hay needle`: `needle` occurs contiguously inside `hay`
(Python's `needle in hay`). -/
def strHasL : List Char → List Char → Bool
  | [], needle => needle.isEmpty
  | hay@(_ :: t), needle => startsWithL hay needle || strHasL t needle

/-- Python `needle in hay` on strings. -/
def pyIn (needle hay : String) : Bool := strHasL hay.data needle.data

/-- Python `s.lower()` (ASCII case folding, as used by the code). -/
def pyLower (s : String) : String := ⟨s.data.map Char.toLower⟩

/-! ## ai_agent.py -/

/-- The structured analysis dict produced by `EmailAnalyzer.analyze_email`.
`is_fallback` is `none` when the Python dict lacks the key (the shortcut
and normal-parse paths do not set it); consumers read it with
`dict.get('is_fallback', False)`, modelled by `aiIsFallback`. -/
structure AIResult where
  category : String
  priority : String
  reply : String
  reasoning : String
  needs_reply : Bool
  is_fallback : Option Bool
deriving Repr, DecidableEq

/-- `ai_result.get('is_fallback', False)` (db_manager.py line 133). -/
def aiIsFallback (r : AIResult) : Bool := r.is_fallback.getD false

/-- `no_reply_patterns` (ai_agent.py lines 55-58). -/
def no_reply_patterns : List String :=
  ["no-reply", "noreply", "donotreply", "do-not-reply",
   "notifications", "automated", "mailer-daemon"]

/-- `EmailAnalyzer._is_no_reply_sender` (ai_agent.py lines 53-60). -/
def is_no_reply_sender (sender : String) : Bool :=
  no_reply_patterns.any (fun pattern => pyIn pattern (pyLower sender))

/-- The dict returned for a no-reply sender (ai_agent.py lines 80-86);
no `is_fallback` key. -/
def noReplyResult : AIResult :=
  { category := "Newsletter", priority := "Low", reply := "No reply needed",
    reasoning := "Automated no-reply sender", needs_reply := false,
    is_fallback := none }

/-- `EmailAnalyzer._generate_fallback_response` (ai_agent.py lines 238-270).
The drafted acknowledgment body is abstracted to the sender-derived text
the code builds; its exact content is irrelevant to every claim. -/
def generate_fallback_response (sender subject _body : String) : AIResult :=
  if ["newsletter", "unsubscribe", "promotion"].any
      (fun word => pyIn word (pyLower subject)) then
    { category := "Newsletter", priority := "Medium", reply := "No reply needed",
      reasoning := "Fallback due to API unavailability", needs_reply := false,
      is_fallback := some true }
  else
    { category := "Personal", priority := "Medium",
      reply := "Dear " ++ sender ++ ", thank you for your email regarding " ++ subject,
      reasoning := "Fallback due to API unavailability", needs_reply := true,
      is_fallback := some true }

/-- Outcome of one call to the external Groq API plus response parsing:
`.ok r` is a successful call whose parsed dict is `r`; `.error ()` is any
exception raised by the call (caught at ai_agent.py line 107). -/
abbrev ClassifierOutcome := Except Unit AIResult

/-- `EmailAnalyzer.analyze_email` (ai_agent.py lines 62-109).
Returns the analysis dict together with the number of classifier (Groq
API) invocations the call performed (0 or 1). -/
def analyze_email (sender subject body : String) (classify : ClassifierOutcome) :
    AIResult × Nat :=
  if is_no_reply_sender sender then (noReplyResult, 0)
  else
    match classify with
    | .ok r => (r, 1)
    | .error _ => (generate_fallback_response sender subject body, 1)

/-! ## calculate_priority (ultimate_app.py lines 128-153) -/

/-- `urgent_keywords` (ultimate_app.py lines 134-137). -/
def urgent_keywords : List String :=
  ["urgent", "asap", "immediate", "deadline", "critical", "overdue",
   "security", "alert", "verify", "password", "login"]

/-- `calculate_priority` (ultimate_app.py lines 128-153), applied to
`email_data['subject']`, `ai_result.get('category','')` and
`ai_result.get('priority','Low')`. -/
def calculate_priority (subject category ai_prio : String) : String :=
  let score : Int := 0
  let score := if urgent_keywords.any (fun k => pyIn k (pyLower subject))
               then score + 30 else score
  let score := if category == "Important" then score + 40
               else if category == "Personal" then score + 20
               else if category == "Spam" then score - 50
               else score
  let score := if ai_prio == "High" then score + 30
               else if ai_prio == "Medium" then score + 15
               else score
  if score ≥ 50 then "HIGH" else if score ≥ 25 then "MEDIUM" else "LOW"

/-- Modelled from the claim's words (spec §4.3): the weighted sum of the
three bonuses. -/
def claimScore (subject category ai_prio : String) : Int :=
  (if urgent_keywords.any (fun k => pyIn k (pyLower subject)) then 30 else 0)
  + (if category = "Important" then 40
     else if category = "Personal" then 20
     else if category = "Spam" then -50 else 0)
  + (if ai_prio = "High" then 30 else if ai_prio = "Medium" then 15 else 0)

/-- Modelled from the claim's words (spec §4.3): the bucketing of a total. -/
def claimBucket (total : Int) : String :=
  if total ≥ 50 then "HIGH" else if total ≥ 25 then "MEDIUM" else "LOW"

/-! ## db_manager.py -/

/-- A row of the `email_history` table, as written by
`DatabaseManager.save_email_analysis` (db_manager.py lines 117-134). -/
structure Record where
  sender : String
  subject : String
  body_snippet : String
  category : String
  priority : String
  clean_reply : String
  needs_reply : Bool
  thread_id : String
  is_fallback : Bool
deriving Repr, DecidableEq

/-- The persisted table, keyed by `email_id`. -/
def Store := String → Option Record

/-- Outcome of one `INSERT OR REPLACE` attempt inside
`save_email_analysis`: success, an `sqlite3.OperationalError` whose text
contains `locked`, or any other exception. -/
inductive SaveAttempt where
  | ok
  | locked
  | err
deriving Repr, DecidableEq

/-- An oracle giving the outcome of the n-th insert attempt (0-based). -/
abbrev SaveOracle := Nat → SaveAttempt

/-- Result of `save_email_analysis`: its return value, the number of
insert attempts made, and the back-off sleeps performed between
attempts, in order, in tenths of a second (`0.5 * (attempt + 1)` seconds
is `5 * (attempt + 1)` tenths; tenths keep the durations exact in `Nat`). -/
structure SaveResult where
  success : Bool
  attempts : Nat
  sleeps : List Nat
deriving Repr, DecidableEq

/-- The retry loop of `save_email_analysis` (db_manager.py lines 112-150):
`fuel` is the number of loop iterations left (`max_retries - attempt`),
`attempt` the 0-based loop variable.  On a locked error with
`attempt < max_retries - 1` the code sleeps `0.5 * (attempt + 1)` seconds
and retries; otherwise it returns `False`.  Other exceptions return
`False` at once; falling off the loop returns `False` (line 150). -/
def saveLoop (oracle : SaveOracle) : Nat → Nat → SaveResult
  | 0, _ => { success := false, attempts := 0, sleeps := [] }
  | fuel + 1, attempt =>
    match oracle attempt with
    | .ok => { success := true, attempts := 1, sleeps := [] }
    | .locked =>
      if attempt < 3 - 1 then
        let r := saveLoop oracle fuel (attempt + 1)
        { success := r.success, attempts := r.attempts + 1,
          sleeps := 5 * (attempt + 1) :: r.sleeps }
      else { success := false, attempts := 1, sleeps := [] }
    | .err => { success := false, attempts := 1, sleeps := [] }

/-- `DatabaseManager.save_email_analysis` (db_manager.py lines 109-150),
`max_retries = 3`. -/
def save_email_analysis (oracle : SaveOracle) : SaveResult :=
  saveLoop oracle 3 0

/-- `DatabaseManager.get_email_analysis` (db_manager.py lines 152-175):
any internal exception (`fails = true`) is caught and becomes `None`,
otherwise the row for `email_id` (or `None` when absent) is returned. -/
def get_email_analysis (store : Store) (fails : Bool) (email_id : String) :
    Option Record :=
  if fails then none else store email_id

/-! ## fast_scan.py -/

/-- A message dict from `GmailService.fetch_unread_emails`; `body` is the
optional `body` key, `snippet` the always-present fallback used by
`email.get('body', email.get('snippet', ''))`. -/
structure Email where
  id : String
  sender : String
  subject : String
  body : Option String
  snippet : String
  thread_id : String
deriving Repr, DecidableEq

/-- Per-message oracle for one run of
`FastEmailScanner.process_single_email`: whether the store read fails
internally, whether an unexpected exception occurs in the non-cached
section of the `try` block, the classifier call's outcome, and the save
attempts' outcomes. -/
structure EmailEnv where
  getFails : Bool
  raises : Bool
  classify : ClassifierOutcome
  save : SaveOracle

/-- The `status` field of the dict `process_single_email` returns
(fast_scan.py lines 32, 55, 59). -/
inductive Status where
  | cached
  | processed (category : String)
  | error
deriving Repr, DecidableEq

def Status.isCached : Status → Bool
  | .cached => true | _ => false

def Status.isProcessed : Status → Bool
  | .processed _ => true | _ => false

def Status.isError : Status → Bool
  | .error => true | _ => false

/-- The row `save_email_analysis` inserts for an email and its analysis
(db_manager.py lines 117-134). -/
def mkRecord (e : Email) (ai : AIResult) : Record :=
  { sender := e.sender, subject := e.subject, body_snippet := e.snippet,
    category := ai.category, priority := ai.priority,
    clean_reply := ai.reply, needs_reply := ai.needs_reply,
    thread_id := e.thread_id, is_fallback := aiIsFallback ai }

/-- Result of one `process_single_email` task: its status, the store
after it, the number of classifier invocations it made, and whether it
requested a draft reply from the gateway. -/
structure ProcResult where
  status : Status
  store : Store
  classifierCalls : Nat
  draftRequested : Bool

/-- `FastEmailScanner.process_single_email` (fast_scan.py lines 23-59).
The cache-hit branch only reads the store; an unexpected exception
(`env.raises`, caught at line 57 as status `error`) can only arise in the
analyze/save/draft section.  The return value of `save_email_analysis` is
read but — exactly as at fast_scan.py line 43 — not used for the status. -/
def process_single_email (store : Store) (e : Email) (env : EmailEnv) :
    ProcResult :=
  match get_email_analysis store env.getFails e.id with
  | some _ => { status := .cached, store := store, classifierCalls := 0,
                draftRequested := false }
  | none =>
    if env.raises then
      { status := .error, store := store, classifierCalls := 0,
        draftRequested := false }
    else
      let (ai, calls) := analyze_email e.sender e.subject
                           (e.body.getD e.snippet) env.classify
      let saved := save_email_analysis env.save
      let store' : Store :=
        if saved.success then
          fun k => if k = e.id then some (mkRecord e ai) else store k
        else store
      let draft := ai.needs_reply && !(ai.reply == "")
      { status := .processed ai.category, store := store',
        classifierCalls := calls, draftRequested := draft }

/-- The aggregated report of `scan_parallel` (fast_scan.py lines 71, 76). -/
structure ScanReport where
  total : Nat
  processed : Nat
  cached : Nat
  errors : Nat
deriving Repr, DecidableEq

/-- Run the batch's tasks, threading the shared store (a linearization of
the worker pool's serialized sqlite writes), returning the statuses in
completion order and the final store. -/
def runBatch : Store → List (Email × EmailEnv) → List Status × Store
  | store, [] => ([], store)
  | store, (e, env) :: rest =>
    let r := process_single_email store e env
    let (ss, store') := runBatch r.store rest
    (r.status :: ss, store')

/-- One iteration of the counting loop of `scan_parallel`
(fast_scan.py lines 86-93). -/
def tallyStep (rep : ScanReport) : Status → ScanReport
  | .processed _ => { rep with processed := rep.processed + 1 }
  | .cached => { rep with cached := rep.cached + 1 }
  | .error => { rep with errors := rep.errors + 1 }

/-- The counting loop of `scan_parallel`, from a running report. -/
def tallyFrom (rep : ScanReport) : List Status → ScanReport
  | [] => rep
  | s :: rest => tallyFrom (tallyStep rep s) rest

/-- The counting loop of `scan_parallel` (fast_scan.py lines 76-93). -/
def tally (total : Nat) (statuses : List Status) : ScanReport :=
  tallyFrom { total := total, processed := 0, cached := 0, errors := 0 } statuses

/-- `FastEmailScanner.scan_parallel` (fast_scan.py lines 61-96): the
batch is the fetched message list paired with each task's oracle. -/
def scan_parallel (store : Store) (batch : List (Email × EmailEnv)) :
    ScanReport × Store :=
  if batch.length = 0 then
    ({ total := 0, processed := 0, cached := 0, errors := 0 }, store)
  else
    let (statuses, store') := runBatch store batch
    (tally batch.length statuses, store')

/-- Classifier invocations attributed to messages with id `id` along a
trace of `process_single_email` steps threading the shared store — the
steps may span any number of scans. -/
def traceCalls (id : String) : Store → List (Email × EmailEnv) → Nat
  | _, [] => 0
  | store, (e, env) :: rest =>
    let r := process_single_email store e env
    (if e.id = id then r.classifierCalls else 0) + traceCalls id r.store rest

/-- The store after a trace of `process_single_email` steps. -/
def traceStore : Store → List (Email × EmailEnv) → Store
  | store, [] => store
  | store, (e, env) :: rest =>
    traceStore (process_single_email store e env).store rest

/-- `calculate_priority` in working_app.py lines 117-142: a distinct
variant (per-keyword cumulative +15, different keyword list, no Spam
penalty, MEDIUM floor 20). -/
def wa_calculate_priority (subject category ai_prio : String) : String :=
  let keywords := ["urgent", "asap", "immediate", "deadline", "important", "critical"]
  let score : Int :=
    keywords.foldl
      (fun acc word => if pyIn word (pyLower subject) then acc + 15 else acc) 0
  let score := if category == "Important" then score + 40
               else if category == "Personal" then score + 20
               else score
  let score := if ai_prio == "High" then score + 30
               else if ai_prio == "Medium" then score + 15
               else score
  if score ≥ 50 then "HIGH" else if score ≥ 20 then "MEDIUM" else "LOW"

/-! ## Automation engines (ultimate_app.py / working_app.py) -/

/-- A side-effecting call on the mail gateway
(`gmail_service.archive_email` / `gmail_service.delete_email`). -/
inductive GatewayCall where
  | archive (id : String)
  | delete (id : String)
deriving Repr, DecidableEq

/-- Gateway oracle: whether each call returns normally (`true`) or raises
a non-`HttpError` exception (`false`); `archive_email` catches only
`HttpError` (gmail_service.py line 274), so the `try` blocks around the
automation rules are live. -/
structure Gateway where
  archiveOk : String → Bool
  deleteOk : String → Bool

/-- `AUTO_PILOT_SETTINGS` as read by ultimate_app.py lines 157-171:
`enabled` plus the three values `rules.get(...)` yields (a missing key
reads as false). -/
structure UASettings where
  enabled : Bool
  archive_newsletters : Bool
  delete_spam : Bool
  archive_low_priority : Bool
deriving Repr, DecidableEq

/-- `apply_autopilot_rules` (ultimate_app.py lines 155-178): an
`if`/`elif` chain inside one `try`; a raising gateway call leaves
`action_taken = None`.  Returns the action label and the gateway calls
invoked. -/
def ua_apply (g : Gateway) (email_id category priority : String)
    (s : UASettings) : Option String × List GatewayCall :=
  if !s.enabled then (none, [])
  else if s.archive_newsletters && category == "Newsletter" then
    if g.archiveOk email_id then (some "Archived (Newsletter)", [.archive email_id])
    else (none, [.archive email_id])
  else if s.delete_spam && category == "Spam" then
    if g.deleteOk email_id then (some "Deleted (Spam)", [.delete email_id])
    else (none, [.delete email_id])
  else if s.archive_low_priority && priority == "LOW"
       && !(category == "Important") && !(category == "Personal") then
    if g.archiveOk email_id then (some "Archived (Low Prio)", [.archive email_id])
    else (none, [.archive email_id])
  else (none, [])

/-- `AUTO_PILOT_SETTINGS` as read by working_app.py lines 144-170 via
`.get(name, default)`. -/
structure WASettings where
  enabled : Bool
  auto_archive_newsletters : Bool
  auto_delete_spam : Bool
  auto_archive_low_priority : Bool
deriving Repr, DecidableEq

/-- Third `if` of `apply_autopilot` (working_app.py lines 162-166),
entered with the `action_taken`/calls accumulated so far; a raising
archive call ends the `try` block, returning the action set so far. -/
def wa_step3 (g : Gateway) (email_id category priority : String)
    (s : WASettings) (a2 : Option String) (c2 : List GatewayCall) :
    Option String × List GatewayCall :=
  if s.auto_archive_low_priority && priority == "LOW"
     && !(category == "Important") && !(category == "Personal") then
    if g.archiveOk email_id then
      (some "📦 Auto-archived (Low Priority)", c2 ++ [.archive email_id])
    else (a2, c2 ++ [.archive email_id])
  else (a2, c2)

/-- Second `if` of `apply_autopilot` (working_app.py lines 156-160). -/
def wa_step2 (g : Gateway) (email_id category priority : String)
    (s : WASettings) (a1 : Option String) (c1 : List GatewayCall) :
    Option String × List GatewayCall :=
  if s.auto_delete_spam && category == "Spam" then
    if g.deleteOk email_id then
      wa_step3 g email_id category priority s
        (some "🗑️ Auto-deleted (Spam)") (c1 ++ [.delete email_id])
    else (a1, c1 ++ [.delete email_id])
  else wa_step3 g email_id category priority s a1 c1

/-- `apply_autopilot` (working_app.py lines 144-170): three independent
`if` statements inside one `try`; `action_taken` is overwritten by each
rule that fires, and a raising gateway call aborts the remaining rules
but returns the `action_taken` set so far.  Returns the final
`action_taken` and the gateway calls invoked, in order. -/
def wa_apply (g : Gateway) (email_id category priority : String)
    (s : WASettings) : Option String × List GatewayCall :=
  if !s.enabled then (none, [])
  else if s.auto_archive_newsletters && category == "Newsletter" then
    if g.archiveOk email_id then
      wa_step2 g email_id category priority s
        (some "📦 Auto-archived (Newsletter)") [.archive email_id]
    else (none, [.archive email_id])
  else wa_step2 g email_id category priority s none []

/-! ## Per-message pipelines of ultimate_app.py and working_app.py -/

/-- Python truthiness of an `Optional[str]` (`None` and `''` are falsy). -/
def pyTruthyOptStr : Option String → Bool
  | none => false
  | some s => !(s == "")

/-- The data dict cached and returned by `process_email`
(ultimate_app.py lines 204-212) / `process_email_with_analytics`
(working_app.py lines 207-215); the wall-clock `timestamp` key is
omitted (no claim mentions it). -/
structure CacheData where
  sender : String
  subject : String
  category : String
  reply : String
  priority : String
  autopilot_action : Option String
deriving Repr, DecidableEq

/-- Outcome of one per-message pipeline run: the returned data (`none`
models Python `None`, the snoozed path), the returned `cached` flag,
whether a draft reply was requested from the gateway, and the gateway
archive/delete calls made. -/
structure PipeOut where
  retval : Option CacheData
  cachedFlag : Bool
  draftRequested : Bool
  gatewayCalls : List GatewayCall

/-- `process_email` (ultimate_app.py lines 180-219).  Every operation in
its `try` block either cannot raise or is itself exception-guarded in
the source, so the model has no residual exception path. -/
def ua_process_email (snoozed : String → Bool) (cache : String → Option CacheData)
    (classify : ClassifierOutcome) (g : Gateway) (s : UASettings)
    (email : Email) : PipeOut :=
  if snoozed email.id then
    { retval := none, cachedFlag := false, draftRequested := false,
      gatewayCalls := [] }
  else
    match cache email.id with
    | some d =>
      { retval := some d, cachedFlag := true, draftRequested := false,
        gatewayCalls := [] }
    | none =>
      let ai := (analyze_email email.sender email.subject email.snippet classify).1
      let priority := calculate_priority email.subject ai.category ai.priority
      let ap := ua_apply g email.id ai.category priority s
      let auto_action := ap.1
      let calls := ap.2
      let draft := ai.needs_reply && !(pyTruthyOptStr auto_action)
      let d : CacheData :=
        { sender := email.sender, subject := email.subject,
          category := ai.category, reply := ai.reply, priority := priority,
          autopilot_action := auto_action }
      { retval := some d, cachedFlag := false, draftRequested := draft,
        gatewayCalls := calls }

/-- `process_email_with_analytics` (working_app.py lines 172-239). -/
def wa_process_email (snoozed : String → Bool) (cache : String → Option CacheData)
    (classify : ClassifierOutcome) (g : Gateway) (s : WASettings)
    (email : Email) : PipeOut :=
  if snoozed email.id then
    { retval := none, cachedFlag := false, draftRequested := false,
      gatewayCalls := [] }
  else
    match cache email.id with
    | some d =>
      { retval := some d, cachedFlag := true, draftRequested := false,
        gatewayCalls := [] }
    | none =>
      let ai := (analyze_email email.sender email.subject email.snippet classify).1
      let priority := wa_calculate_priority email.subject ai.category ai.priority
      let ap := wa_apply g email.id ai.category priority s
      let auto_action := ap.1
      let calls := ap.2
      let draft := ai.needs_reply && !(pyTruthyOptStr auto_action)
      let d : CacheData :=
        { sender := email.sender, subject := email.subject,
          category := ai.category, reply := ai.reply, priority := priority,
          autopilot_action := auto_action }
      { retval := some d, cachedFlag := false, draftRequested := draft,
        gatewayCalls := calls }

/-! ## enterprise_app.py scan_inbox (single-flight) -/

/-- Observable outcome of one `POST /api/scan` request
(enterprise_app.py lines 298-393). -/
structure ScanOutcome where
  status : String
  flagAfter : Bool
  fetchAttempted : Bool
  poolStarted : Bool
  emails_found : Nat
  emails_processed : Nat
deriving Repr, DecidableEq

/-- `scan_inbox` (enterprise_app.py lines 298-393).  `processing` is
`request.app.state.processing` on entry (the check at line 301 and the
set at line 308 run without an intervening `await`, so they are atomic
with respect to the event loop).  `fetch` is the outcome of
`fetch_unread_emails` — `.error` models any exception in the `try` body,
handled at lines 384-393.  `proc e = true` models the worker for `e`
returning a non-`None` result (enterprise `process_single_email`
catches all exceptions and returns `None`). -/
def scan_inbox (processing : Bool) (fetch : Except Unit (List Email))
    (proc : Email → Bool) : ScanOutcome :=
  if processing then
    { status := "already_processing", flagAfter := processing,
      fetchAttempted := false, poolStarted := false,
      emails_found := 0, emails_processed := 0 }
  else
    match fetch with
    | .error _ =>
      { status := "error", flagAfter := false, fetchAttempted := true,
        poolStarted := false, emails_found := 0, emails_processed := 0 }
    | .ok emails =>
      if emails.length = 0 then
        { status := "success", flagAfter := false, fetchAttempted := true,
          poolStarted := false, emails_found := 0, emails_processed := 0 }
      else
        { status := "success", flagAfter := false, fetchAttempted := true,
          poolStarted := true, emails_found := emails.length,
          emails_processed := (emails.filter proc).length }

/-! ## rate_limit (ai_agent.py lines 25-40)

Timestamps are integers (a discretization of `time.time()`; the code
only compares them and adds `period`).  One `wrapper` call is two
critical accesses to the shared `calls_made` list: the filter/check
(lines 31-36, which also decides the time at which the append will run —
`now` itself, or `calls_made[0] + period` after the saturation sleep)
and the append (line 37).  `rl_acquire` is the two run back to back,
i.e. an acquisition that no other worker interleaves. -/

/-- Membership of a timestamp `t` in the trailing `period`-second window
ending at `v` (the window notion of line 32's filter: strictly after
`v - period`, at or before `v`). -/
def wp (period v t : Int) : Bool :=
  decide (v - period < t) && decide (t ≤ v)

/-- Number of timestamps in `l` falling in the trailing `period`-second
window ending at `v`. -/
def rl_window_count (period : Int) (l : List Int) (v : Int) : Nat :=
  l.countP (wp period v)

/-- Lines 31-36 of ai_agent.py: filter the shared list in place and
compute the time at which this worker will perform its append — `now`
when under the limit, `calls_made[0] + period` after the saturation
sleep of `period - (now - calls_made[0])` seconds. -/
def rl_check (calls : Nat) (period : Int) (st : List Int) (now : Int) :
    List Int × Int :=
  let w := st.filter (fun c => decide (now - period < c))
  if calls ≤ w.length then (w, w.headD now + period) else (w, now)

/-- Line 37 of ai_agent.py: `calls_made.append(time.time())`. -/
def rl_append (st : List Int) (t : Int) : List Int := st ++ [t]

/-- One uninterrupted acquisition: check immediately followed by append. -/
def rl_acquire (calls : Nat) (period : Int) (st : List Int) (now : Int) :
    List Int × Int :=
  let (w, t) := rl_check calls period st now
  (rl_append w t, t)

/-- A serialized sequence of acquisitions: each call arrives `d` seconds
(`d ≥ 0`) after the previous one returned.  Returns the appended
timestamps in order. -/
def rl_run (calls : Nat) (period : Int) : List Int → Int → List Nat → List Int
  | _, _, [] => []
  | st, now, d :: ds =>
    let a := rl_acquire calls period st (now + (d : Int))
    a.2 :: rl_run calls period a.1 a.2 ds

/-! ## Concrete scenario inputs -/

/-- An empty `email_history` table. -/
def emptyStore : Store := fun _ => none

/-- A concrete classifier verdict used in scenario runs. -/
def demoAI : AIResult :=
  { category := "Personal", priority := "Medium", reply := "Thanks!",
    reasoning := "r", needs_reply := false, is_fallback := none }

/-- The i-th message of a concrete 20-message batch. -/
def demoEmail (i : Nat) : Email :=
  { id := "e" ++ toString i, sender := "alice@example.com",
    subject := "hello", body := none, snippet := "snip", thread_id := "t" }

/-- A task environment where every collaborator call succeeds. -/
def demoEnvOk : EmailEnv :=
  { getFails := false, raises := false, classify := .ok demoAI,
    save := fun _ => .ok }

/-- A task environment whose every insert attempt hits a write lock. -/
def demoEnvLocked : EmailEnv :=
  { getFails := false, raises := false, classify := .ok demoAI,
    save := fun _ => .locked }

/-- A task environment whose store read fails internally. -/
def demoEnvGetFails : EmailEnv :=
  { getFails := true, raises := false, classify := .ok demoAI,
    save := fun _ => .ok }

/-- Scenario D batch: 20 unseen messages; message `e0`'s save hits lock
contention on all attempts, the other 19 succeed. -/
def demoBatch : List (Email × EmailEnv) :=
  (List.range 20).map
    (fun i => (demoEmail i, if i = 0 then demoEnvLocked else demoEnvOk))

/-- A persisted record for message `m1`. -/
def demoRecord : Record :=
  { sender := "alice@example.com", subject := "hello", body_snippet := "snip",
    category := "Personal", priority := "Medium", clean_reply := "Thanks!",
    needs_reply := false, thread_id := "t", is_fallback := false }

/-- The message with id `m1` (its sender is not a no-reply address). -/
def demoEmailM1 : Email :=
  { id := "m1", sender := "alice@example.com", subject := "hello",
    body := none, snippet := "snip", thread_id := "t" }

/-- A gateway on which every archive/delete call returns normally. -/
def demoGateway : Gateway :=
  { archiveOk := fun _ => true, deleteOk := fun _ => true }

/-- A classifier verdict of category Spam that asks for a reply. -/
def demoSpamAI : AIResult :=
  { category := "Spam", priority := "High", reply := "ok",
    reasoning := "r", needs_reply := true, is_fallback := none }

/-! # Lemmas -/

theorem tallyFrom_spec (statuses : List Status) :
    ∀ rep : ScanReport,
      (tallyFrom rep statuses).total = rep.total ∧
      (tallyFrom rep statuses).processed + (tallyFrom rep statuses).cached
        + (tallyFrom rep statuses).errors
        = rep.processed + rep.cached + rep.errors + statuses.length := by
  induction statuses with
  | nil => intro rep; simp [tallyFrom]
  | cons s rest ih =>
    intro rep
    obtain ⟨h1, h2⟩ := ih (tallyStep rep s)
    refine ⟨?_, ?_⟩ <;> cases s <;>
      simp [tallyFrom, tallyStep] at h1 h2 ⊢ <;> omega

theorem runBatch_length (batch : List (Email × EmailEnv)) :
    ∀ store : Store, (runBatch store batch).1.length = batch.length := by
  induction batch with
  | nil => intro store; simp [runBatch]
  | cons p rest ih => intro store; simp [runBatch, ih]

/-! # Claims -/

/-- C3. Conservation: for every scan invocation, the returned ScanReport
satisfies processed + cachedHits + errors == total, where total is the
number of messages fetched in the batch; an empty batch returns the
report with all four counters zero. -/
theorem C3_conservation :
    (∀ (store : Store) (batch : List (Email × EmailEnv)),
      ((scan_parallel store batch).1).processed
        + ((scan_parallel store batch).1).cached
        + ((scan_parallel store batch).1).errors
        = ((scan_parallel store batch).1).total
      ∧ ((scan_parallel store batch).1).total = batch.length)
    ∧ (∀ store : Store,
        scan_parallel store []
          = ({ total := 0, processed := 0, cached := 0, errors := 0 }, store)) := by
  constructor
  · intro store batch
    match batch with
    | [] => simp [scan_parallel]
    | p :: rest =>
      have hlen := runBatch_length (p :: rest) store
      obtain ⟨h1, h2⟩ := tallyFrom_spec (runBatch store (p :: rest)).1
        { total := (p :: rest).length, processed := 0, cached := 0, errors := 0 }
      simp only [scan_parallel, tally, List.length_cons]
      rw [if_neg (Nat.succ_ne_zero rest.length)]
      simp only [List.length_cons] at h1 h2
      dsimp only
      rw [h1, h2, hlen]
      simp
  · intro store; simp [scan_parallel]

/-- C4. No-reply shortcut: for every sender containing one of the
no-reply patterns as a case-insensitive substring, and for all subjects,
bodies and classifier behaviours, `analyze_email` returns the verdict
{category: Newsletter, priority: Low, reply: "No reply needed",
needsReply: false, isFallback: false} and performs zero classifier
calls. -/
theorem C4_no_reply_shortcut (sender subject body : String)
    (classify : ClassifierOutcome)
    (h : no_reply_patterns.any (fun p => pyIn p (pyLower sender)) = true) :
    analyze_email sender subject body classify = (noReplyResult, 0)
    ∧ noReplyResult.category = "Newsletter"
    ∧ noReplyResult.priority = "Low"
    ∧ noReplyResult.reply = "No reply needed"
    ∧ noReplyResult.needs_reply = false
    ∧ aiIsFallback noReplyResult = false := by
  refine ⟨?_, rfl, rfl, rfl, rfl, rfl⟩
  simp [analyze_email, is_no_reply_sender, h]

/-- Witness for C4 at the spec's Scenario A input. -/
theorem C4_no_reply_shortcut_witness :
    analyze_email "no-reply@newsletter.com" "Weekly Updates"
        "Check out this week" (.error ()) = (noReplyResult, 0)
    ∧ noReplyResult.category = "Newsletter"
    ∧ noReplyResult.priority = "Low"
    ∧ noReplyResult.reply = "No reply needed"
    ∧ noReplyResult.needs_reply = false
    ∧ aiIsFallback noReplyResult = false :=
  C4_no_reply_shortcut "no-reply@newsletter.com" "Weekly Updates"
    "Check out this week" (.error ()) (by decide)

/-- C5. PriorityScorer: for every (subject, category, aiPriorityHint),
`calculate_priority` (ultimate_app.py) equals the bucket of the weighted
sum of the urgency, category and hint bonuses, with total ≥ 50 → HIGH,
total ≥ 25 → MEDIUM, else LOW. -/
theorem C5_priority_scorer (subject category ai_prio : String) :
    calculate_priority subject category ai_prio
      = claimBucket (claimScore subject category ai_prio) := by
  simp only [calculate_priority, claimBucket, claimScore, beq_iff_eq]
  by_cases h1 : urgent_keywords.any (fun k => pyIn k (pyLower subject)) = true <;>
  by_cases h2 : category = "Important" <;>
  by_cases h3 : category = "Personal" <;>
  by_cases h4 : category = "Spam" <;>
  by_cases h5 : ai_prio = "High" <;>
  by_cases h6 : ai_prio = "Medium" <;>
    simp [h1, h2, h3, h4, h5, h6]

/-- C10. Store lookups never raise to the caller: a failed read returns
None, exactly what a genuine cache miss returns, and the scanner then
proceeds past the cache check into the classification branch
(re-invoking the classifier whenever the no-reply shortcut does not
apply). -/
theorem C10_failed_read_is_miss :
    (∀ (store : Store) (id : String), get_email_analysis store true id = none)
    ∧ (∀ (store store' : Store) (id : String), store' id = none →
        get_email_analysis store true id = get_email_analysis store' false id)
    ∧ (∀ (store : Store) (e : Email) (env : EmailEnv),
        env.getFails = true → env.raises = false →
          (process_single_email store e env).status.isCached = false
          ∧ (is_no_reply_sender e.sender = false →
              (process_single_email store e env).classifierCalls = 1)) := by
  refine ⟨fun store id => rfl, fun store store' id h => by
    simp [get_email_analysis, h], ?_⟩
  intro store e env hg hr
  simp only [process_single_email, get_email_analysis, hg, hr, if_true,
    Bool.false_eq_true, if_false]
  constructor
  · rfl
  · intro hnr
    simp [analyze_email, hnr]
    cases env.classify <;> simp

/-- Witness for C10: a concrete failing read over a store that does hold
a record for the id, processed as a fresh classification. -/
theorem C10_failed_read_is_miss_witness :
    (process_single_email
        (fun _ => some (mkRecord
          { id := "m1", sender := "alice@example.com", subject := "hello",
            body := none, snippet := "snip", thread_id := "t1" }
          noReplyResult))
        { id := "m1", sender := "alice@example.com", subject := "hello",
          body := none, snippet := "snip", thread_id := "t1" }
        { getFails := true, raises := false,
          classify := .ok noReplyResult, save := fun _ => .ok }).status.isCached
      = false
    ∧ (is_no_reply_sender "alice@example.com" = false →
        (process_single_email
          (fun _ => some (mkRecord
            { id := "m1", sender := "alice@example.com", subject := "hello",
              body := none, snippet := "snip", thread_id := "t1" }
            noReplyResult))
          { id := "m1", sender := "alice@example.com", subject := "hello",
            body := none, snippet := "snip", thread_id := "t1" }
          { getFails := true, raises := false,
            classify := .ok noReplyResult, save := fun _ => .ok }).classifierCalls
        = 1) :=
  C10_failed_read_is_miss.2.2
    (fun _ => some (mkRecord
      { id := "m1", sender := "alice@example.com", subject := "hello",
        body := none, snippet := "snip", thread_id := "t1" }
      noReplyResult))
    { id := "m1", sender := "alice@example.com", subject := "hello",
      body := none, snippet := "snip", thread_id := "t1" }
    { getFails := true, raises := false,
      classify := .ok noReplyResult, save := fun _ => .ok }
    rfl rfl

theorem save_all_locked (oracle : SaveOracle) (h : ∀ n, oracle n = .locked) :
    save_email_analysis oracle
      = { success := false, attempts := 3, sleeps := [5, 10] } := by
  simp [save_email_analysis, saveLoop, h]

theorem process_cached (store : Store) (e : Email) (env : EmailEnv) (r : Record)
    (h : get_email_analysis store env.getFails e.id = some r) :
    process_single_email store e env
      = { status := .cached, store := store, classifierCalls := 0,
          draftRequested := false } := by
  unfold process_single_email
  rw [h]

theorem process_store_frame (store : Store) (e : Email) (env : EmailEnv)
    (k : String) (hk : k ≠ e.id) :
    (process_single_email store e env).store k = store k := by
  unfold process_single_email
  cases h : get_email_analysis store env.getFails e.id with
  | some r => rfl
  | none =>
    by_cases hr : env.raises = true
    · simp [hr]
    · simp only [Bool.not_eq_true] at hr
      simp only [hr, Bool.false_eq_true, if_false]
      split
      · simp [hk]
      · rfl

/-- C2 (counterexample). Scenario D from the spec: in a 20-message batch
where message `e0` exhausts all 3 save attempts on lock contention and
the other 19 succeed, the report counts errors:0 and processed:20 — not
errors:1 and processed:19 as the claim states. -/
theorem C2_counterexample :
    (save_email_analysis demoEnvLocked.save).success = false
    ∧ (save_email_analysis demoEnvLocked.save).attempts = 3
    ∧ (scan_parallel emptyStore demoBatch).1
        = { total := 20, processed := 20, cached := 0, errors := 0 }
    ∧ ¬ ((scan_parallel emptyStore demoBatch).1.errors = 1
          ∧ (scan_parallel emptyStore demoBatch).1.processed = 19) := by
  refine ⟨by decide, by decide, by decide, by decide⟩

/-- C2 (amended). `save_email_analysis` retries lock contention up to 3
attempts, sleeping 0.5s then 1.0s between them (5 and 10 tenths), and
then returns False with no row written; `process_single_email` ignores
that return value, so the message is still counted as processed (the
scan's `errors` counter only counts tasks that raised), and no Record
is created for it. -/
theorem C2_save_failure_counted_processed (store : Store) (e : Email)
    (env : EmailEnv) (hg : env.getFails = false) (hmiss : store e.id = none)
    (hlock : ∀ n, env.save n = SaveAttempt.locked) (hr : env.raises = false) :
    (process_single_email store e env).status.isProcessed = true
    ∧ (process_single_email store e env).store e.id = none
    ∧ (save_email_analysis env.save).success = false
    ∧ (save_email_analysis env.save).attempts = 3
    ∧ (save_email_analysis env.save).sleeps = [5, 10] := by
  have hsave := save_all_locked env.save hlock
  refine ⟨?_, ?_, by rw [hsave], by rw [hsave], by rw [hsave]⟩ <;>
    simp [process_single_email, get_email_analysis, hg, hmiss, hr, hsave,
      Status.isProcessed]

/-- Witness for the amended C2 at a concrete all-locked environment. -/
theorem C2_save_failure_counted_processed_witness :
    (process_single_email emptyStore demoEmailM1 demoEnvLocked).status.isProcessed = true
    ∧ (process_single_email emptyStore demoEmailM1 demoEnvLocked).store demoEmailM1.id = none
    ∧ (save_email_analysis demoEnvLocked.save).success = false
    ∧ (save_email_analysis demoEnvLocked.save).attempts = 3
    ∧ (save_email_analysis demoEnvLocked.save).sleeps = [5, 10] :=
  C2_save_failure_counted_processed emptyStore demoEmailM1 demoEnvLocked
    rfl rfl (fun _ => rfl) rfl

/-- C1 (counterexample). With a Record for id `m1` in the store, a later
scan whose store lookup fails internally (treated as a miss,
db_manager.py lines 173-175) re-invokes the Classifier for `m1`: the
classifier call count while the Record exists is 1, not 0. -/
theorem C1_counterexample :
    traceCalls "m1" (fun _ => some demoRecord) [(demoEmailM1, demoEnvGetFails)] = 1
    ∧ ¬ (traceCalls "m1" (fun _ => some demoRecord)
          [(demoEmailM1, demoEnvGetFails)] = 0) := by
  refine ⟨by decide, by decide⟩

/-- C1 (amended). Dedupe holds whenever store lookups succeed: once a
Record for an id is in the Store, every later processing step for that
id whose `get_email_analysis` does not fail internally is
short-circuited to a cache hit, the Classifier is never invoked for that
id again, and the Record survives the whole trace unchanged. -/
theorem C1_dedupe (id : String) (steps : List (Email × EmailEnv)) :
    ∀ (store : Store) (rec : Record), store id = some rec →
      (∀ p ∈ steps, p.1.id = id → p.2.getFails = false) →
      traceCalls id store steps = 0 ∧ traceStore store steps id = some rec := by
  induction steps with
  | nil => intro store rec hrec _; exact ⟨rfl, hrec⟩
  | cons p rest ih =>
    intro store rec hrec hok
    obtain ⟨e, env⟩ := p
    have hrest : ∀ q ∈ rest, q.1.id = id → q.2.getFails = false :=
      fun q hq => hok q (List.mem_cons_of_mem _ hq)
    by_cases hid : e.id = id
    · have hg : env.getFails = false := hok (e, env) (List.mem_cons_self _ _) hid
      have hget : get_email_analysis store env.getFails e.id = some rec := by
        rw [hg]
        simpa [get_email_analysis, hid] using hrec
      have hproc := process_cached store e env rec hget
      obtain ⟨ih1, ih2⟩ := ih store rec hrec hrest
      exact ⟨by simp [traceCalls, hproc, ih1],
             by simp [traceStore, hproc, ih2]⟩
    · have hframe : (process_single_email store e env).store id = store id :=
        process_store_frame store e env id (fun hh => hid hh.symm)
      obtain ⟨ih1, ih2⟩ := ih (process_single_email store e env).store rec
        (by rw [hframe]; exact hrec) hrest
      exact ⟨by simp [traceCalls, hid, ih1], by simp [traceStore, ih2]⟩

/-- Witness for the amended C1: a record for `m1` in the store, one
later healthy-lookup step for `m1` — no classifier call, record kept. -/
theorem C1_dedupe_witness :
    traceCalls "m1" (fun _ => some demoRecord) [(demoEmailM1, demoEnvOk)] = 0
    ∧ traceStore (fun _ => some demoRecord) [(demoEmailM1, demoEnvOk)] "m1"
        = some demoRecord :=
  C1_dedupe "m1" [(demoEmailM1, demoEnvOk)] (fun _ => some demoRecord)
    demoRecord rfl (by decide)

theorem wa_step3_len (g : Gateway) (email_id category priority : String)
    (s : WASettings) (a2 : Option String) (c2 : List GatewayCall) :
    (wa_step3 g email_id category priority s a2 c2).2.length ≤ c2.length + 1 := by
  unfold wa_step3
  split_ifs <;> simp

theorem wa_step2_len (g : Gateway) (email_id category priority : String)
    (s : WASettings) (a1 : Option String) (c1 : List GatewayCall) :
    (wa_step2 g email_id category priority s a1 c1).2.length ≤ c1.length + 2 := by
  unfold wa_step2
  split_ifs with h1 h2
  · exact le_trans
      (wa_step3_len g email_id category priority s _ (c1 ++ [.delete email_id]))
      (by simp)
  · simp
  · exact le_trans (wa_step3_len g email_id category priority s a1 c1)
      (by omega)

theorem wa_step2_len_newsletter (g : Gateway) (email_id category priority : String)
    (s : WASettings) (a1 : Option String) (c1 : List GatewayCall)
    (h : (category == "Newsletter") = true) :
    (wa_step2 g email_id category priority s a1 c1).2.length ≤ c1.length + 1 := by
  have hspam : (category == "Spam") = false := by
    simp only [beq_iff_eq] at h
    subst h
    decide
  unfold wa_step2
  rw [hspam]
  simp only [Bool.and_false, Bool.false_eq_true, if_false]
  exact wa_step3_len g email_id category priority s a1 c1

theorem ua_apply_len (g : Gateway) (email_id category priority : String)
    (s : UASettings) :
    (ua_apply g email_id category priority s).2.length ≤ 1 := by
  unfold ua_apply
  split_ifs <;> simp

theorem wa_apply_len (g : Gateway) (email_id category priority : String)
    (s : WASettings) :
    (wa_apply g email_id category priority s).2.length ≤ 2 := by
  unfold wa_apply
  split_ifs with h0 h1 h2
  · simp
  · have hn : (category == "Newsletter") = true := (Bool.and_eq_true _ _).mp h1 |>.2
    exact le_trans
      (wa_step2_len_newsletter g email_id category priority s _ _ hn) (by simp)
  · simp
  · exact le_trans (wa_step2_len g email_id category priority s none []) (by simp)

/-- C6 (counterexample). `working_app.apply_autopilot` with autopilot
enabled, `auto_archive_newsletters` and `auto_archive_low_priority` both
on, for a message classified Newsletter with priority LOW: the gateway
archive call is performed twice in one pass — more than one gateway
action for one message. -/
theorem C6_counterexample :
    (wa_apply demoGateway "m1" "Newsletter" "LOW"
        { enabled := true, auto_archive_newsletters := true,
          auto_delete_spam := true, auto_archive_low_priority := true }).2
      = [.archive "m1", .archive "m1"]
    ∧ ¬ ((wa_apply demoGateway "m1" "Newsletter" "LOW"
        { enabled := true, auto_archive_newsletters := true,
          auto_delete_spam := true, auto_archive_low_priority := true }).2.length
        ≤ 1) := by
  refine ⟨by decide, by decide⟩

/-- C6 (amended). `ultimate_app.apply_autopilot_rules` evaluates its
rules as an if/elif chain in the order archiveNewsletters, deleteSpam,
archiveLowPriority and performs at most one gateway action per message
per pass, and no action when `enabled` is false; the
`working_app.apply_autopilot` variant evaluates the same three rules as
independent ifs, performs up to two gateway actions per message per
pass, and also performs none when `enabled` is false. -/
theorem C6_single_action (g : Gateway) (email_id category priority : String) :
    (∀ s : UASettings, (ua_apply g email_id category priority s).2.length ≤ 1)
    ∧ (∀ s : UASettings, s.enabled = false →
        ua_apply g email_id category priority s = (none, []))
    ∧ (∀ s : WASettings, (wa_apply g email_id category priority s).2.length ≤ 2)
    ∧ (∀ s : WASettings, s.enabled = false →
        wa_apply g email_id category priority s = (none, [])) := by
  refine ⟨fun s => ua_apply_len g email_id category priority s,
    fun s hs => by simp [ua_apply, hs],
    fun s => wa_apply_len g email_id category priority s,
    fun s hs => by simp [wa_apply, hs]⟩

/-- Witness for C6 at concrete inputs, including disabled rule sets. -/
theorem C6_single_action_witness :
    (ua_apply demoGateway "m1" "Newsletter" "LOW"
        { enabled := true, archive_newsletters := true, delete_spam := true,
          archive_low_priority := true }).2.length ≤ 1
    ∧ ua_apply demoGateway "m1" "Newsletter" "LOW"
        { enabled := false, archive_newsletters := true, delete_spam := true,
          archive_low_priority := true } = (none, [])
    ∧ (wa_apply demoGateway "m1" "Newsletter" "LOW"
        { enabled := true, auto_archive_newsletters := true,
          auto_delete_spam := true, auto_archive_low_priority := true }).2.length ≤ 2
    ∧ wa_apply demoGateway "m1" "Newsletter" "LOW"
        { enabled := false, auto_archive_newsletters := true,
          auto_delete_spam := true, auto_archive_low_priority := true }
        = (none, []) :=
  ⟨(C6_single_action demoGateway "m1" "Newsletter" "LOW").1 _,
   (C6_single_action demoGateway "m1" "Newsletter" "LOW").2.1 _ rfl,
   (C6_single_action demoGateway "m1" "Newsletter" "LOW").2.2.1 _,
   (C6_single_action demoGateway "m1" "Newsletter" "LOW").2.2.2 _ rfl⟩

theorem pyTruthy_ua (g : Gateway) (email_id category priority : String)
    (s : UASettings) :
    pyTruthyOptStr (ua_apply g email_id category priority s).1
      = (ua_apply g email_id category priority s).1.isSome := by
  unfold ua_apply
  split_ifs <;> rfl

theorem wa_step3_opt (g : Gateway) (email_id category priority : String)
    (s : WASettings) (a2 : Option String) (c2 : List GatewayCall)
    (h : pyTruthyOptStr a2 = a2.isSome) :
    pyTruthyOptStr (wa_step3 g email_id category priority s a2 c2).1
      = (wa_step3 g email_id category priority s a2 c2).1.isSome := by
  unfold wa_step3
  split_ifs <;> first | rfl | exact h

theorem wa_step2_opt (g : Gateway) (email_id category priority : String)
    (s : WASettings) (a1 : Option String) (c1 : List GatewayCall)
    (h : pyTruthyOptStr a1 = a1.isSome) :
    pyTruthyOptStr (wa_step2 g email_id category priority s a1 c1).1
      = (wa_step2 g email_id category priority s a1 c1).1.isSome := by
  unfold wa_step2
  split_ifs
  · exact wa_step3_opt g email_id category priority s _ _ (by rfl)
  · exact h
  · exact wa_step3_opt g email_id category priority s a1 c1 h

theorem pyTruthy_wa (g : Gateway) (email_id category priority : String)
    (s : WASettings) :
    pyTruthyOptStr (wa_apply g email_id category priority s).1
      = (wa_apply g email_id category priority s).1.isSome := by
  unfold wa_apply
  split_ifs
  · rfl
  · exact wa_step2_opt g email_id category priority s _ _ (by rfl)
  · rfl
  · exact wa_step2_opt g email_id category priority s none [] (by rfl)

theorem draft_guard (needs : Bool) (a : Option String)
    (h : pyTruthyOptStr a = a.isSome) :
    ((needs && !(pyTruthyOptStr a)) = true → needs = true ∧ a = none)
    ∧ (a ≠ none → (needs && !(pyTruthyOptStr a)) = false) := by
  cases a <;> cases needs <;> simp_all [pyTruthyOptStr]

/-- C9. Draft suppression: in both per-message pipelines
(`ultimate_app.process_email` and
`working_app.process_email_with_analytics`), a draft reply is requested
only if the verdict's needsReply is true and no automation action was
taken; a message whose returned record carries an automation action is
never drafted a reply, even when needsReply is true. -/
theorem C9_draft_suppression (snoozed : String → Bool)
    (cache : String → Option CacheData) (classify : ClassifierOutcome)
    (g : Gateway) (email : Email) :
    (∀ s : UASettings,
      ((ua_process_email snoozed cache classify g s email).draftRequested = true →
        (analyze_email email.sender email.subject email.snippet classify).1.needs_reply
          = true
        ∧ ∃ d, (ua_process_email snoozed cache classify g s email).retval = some d
             ∧ d.autopilot_action = none)
      ∧ (∀ d, (ua_process_email snoozed cache classify g s email).retval = some d →
          d.autopilot_action ≠ none →
          (ua_process_email snoozed cache classify g s email).draftRequested = false))
    ∧ (∀ s : WASettings,
      ((wa_process_email snoozed cache classify g s email).draftRequested = true →
        (analyze_email email.sender email.subject email.snippet classify).1.needs_reply
          = true
        ∧ ∃ d, (wa_process_email snoozed cache classify g s email).retval = some d
             ∧ d.autopilot_action = none)
      ∧ (∀ d, (wa_process_email snoozed cache classify g s email).retval = some d →
          d.autopilot_action ≠ none →
          (wa_process_email snoozed cache classify g s email).draftRequested = false)) := by
  constructor
  · intro s
    unfold ua_process_email
    by_cases hsn : snoozed email.id
    · simp [hsn]
    · simp only [hsn, Bool.false_eq_true, if_false]
      cases hc : cache email.id with
      | some d => simp
      | none =>
        obtain ⟨g1, g2⟩ := draft_guard
          ((analyze_email email.sender email.subject email.snippet classify).1.needs_reply)
          ((ua_apply g email.id
              (analyze_email email.sender email.subject email.snippet classify).1.category
              (calculate_priority email.subject
                (analyze_email email.sender email.subject email.snippet classify).1.category
                (analyze_email email.sender email.subject email.snippet classify).1.priority)
              s).1)
          (pyTruthy_ua g email.id _ _ s)
        constructor
        · intro h
          obtain ⟨hn, ha⟩ := g1 h
          exact ⟨hn, _, rfl, ha⟩
        · intro d hd hne
          cases hd
          exact g2 hne
  · intro s
    unfold wa_process_email
    by_cases hsn : snoozed email.id
    · simp [hsn]
    · simp only [hsn, Bool.false_eq_true, if_false]
      cases hc : cache email.id with
      | some d => simp
      | none =>
        obtain ⟨g1, g2⟩ := draft_guard
          ((analyze_email email.sender email.subject email.snippet classify).1.needs_reply)
          ((wa_apply g email.id
              (analyze_email email.sender email.subject email.snippet classify).1.category
              (wa_calculate_priority email.subject
                (analyze_email email.sender email.subject email.snippet classify).1.category
                (analyze_email email.sender email.subject email.snippet classify).1.priority)
              s).1)
          (pyTruthy_wa g email.id _ _ s)
        constructor
        · intro h
          obtain ⟨hn, ha⟩ := g1 h
          exact ⟨hn, _, rfl, ha⟩
        · intro d hd hne
          cases hd
          exact g2 hne

/-- Witness for C9 at the spec's Scenario E: deleteSpam on, message
classified Spam with needsReply true — no draft requested. -/
theorem C9_draft_suppression_witness :
    (ua_process_email (fun _ => false) (fun _ => none) (.ok demoSpamAI)
        demoGateway
        { enabled := true, archive_newsletters := false, delete_spam := true,
          archive_low_priority := false } demoEmailM1).draftRequested = false :=
  ((C9_draft_suppression (fun _ => false) (fun _ => none) (.ok demoSpamAI)
      demoGateway demoEmailM1).1
    { enabled := true, archive_newsletters := false, delete_spam := true,
      archive_low_priority := false }).2
    ⟨"alice@example.com", "hello", "Spam", "ok", "LOW", some "Deleted (Spam)"⟩
    (by decide) (by decide)

/-- C7. Single-flight: while the process-wide `processing` flag is set, a
new scan request returns the distinct status `already_processing`
immediately, without fetching messages or starting a worker pool; with
the flag clear, every path (empty batch, success, failure) finishes with
the flag released, and such a request is never answered
`already_processing`. -/
theorem C7_single_flight (fetch : Except Unit (List Email)) (proc : Email → Bool) :
    (scan_inbox true fetch proc).status = "already_processing"
    ∧ (scan_inbox true fetch proc).fetchAttempted = false
    ∧ (scan_inbox true fetch proc).poolStarted = false
    ∧ (scan_inbox false fetch proc).flagAfter = false
    ∧ ¬ ((scan_inbox false fetch proc).status = "already_processing") := by
  refine ⟨rfl, rfl, rfl, ?_, ?_⟩ <;>
  · unfold scan_inbox
    cases fetch with
    | error e => simp
    | ok emails => by_cases h : emails.length = 0 <;> simp [h]

/-- Witness for C7 at a concrete fetch outcome. -/
theorem C7_single_flight_witness :
    (scan_inbox true (.ok [demoEmailM1]) (fun _ => true)).status
        = "already_processing"
    ∧ (scan_inbox true (.ok [demoEmailM1]) (fun _ => true)).fetchAttempted = false
    ∧ (scan_inbox true (.ok [demoEmailM1]) (fun _ => true)).poolStarted = false
    ∧ (scan_inbox false (.ok [demoEmailM1]) (fun _ => true)).flagAfter = false
    ∧ ¬ ((scan_inbox false (.ok [demoEmailM1]) (fun _ => true)).status
        = "already_processing") :=
  C7_single_flight (.ok [demoEmailM1]) (fun _ => true)

theorem countP_congr_mem (l : List Int) (p q : Int → Bool)
    (h : ∀ x ∈ l, p x = q x) : l.countP p = l.countP q := by
  induction l with
  | nil => rfl
  | cons a tl ih =>
    have ha := h a (List.mem_cons_self a tl)
    have ht := ih (fun x hx => h x (List.mem_cons_of_mem a hx))
    simp [List.countP_cons, ha, ht]

theorem countP_lt_length_of_mem (l : List Int) (p : Int → Bool) (x : Int)
    (hx : x ∈ l) (hpx : p x = false) : l.countP p < l.length := by
  induction l with
  | nil => cases hx
  | cons a tl ih =>
    rw [List.countP_cons, List.length_cons]
    rcases List.mem_cons.mp hx with h | h
    · subst h
      have h1 := List.countP_le_length p (l := tl)
      simp [hpx]
      omega
    · have h2 := ih h
      split <;> omega

theorem countP_and_le (l : List Int) (p q : Int → Bool) :
    l.countP (fun a => p a && q a) ≤ l.countP p := by
  induction l with
  | nil => simp
  | cons a tl ih =>
    rw [List.countP_cons, List.countP_cons]
    cases hp : p a <;> cases hq : q a <;> simp [hp, hq] <;> omega

theorem rl_acquire_fst (calls : Nat) (period : Int) (st : List Int) (now : Int) :
    (rl_acquire calls period st now).1
      = (st.filter fun c => decide (now - period < c))
        ++ [(rl_acquire calls period st now).2] := by
  by_cases hsat : calls ≤ (st.filter fun c => decide (now - period < c)).length <;>
    simp [rl_acquire, rl_check, rl_append, hsat]

theorem rl_acquire_ge (calls : Nat) (period : Int) (hc : 0 < calls)
    (st : List Int) (now : Int) :
    now ≤ (rl_acquire calls period st now).2 := by
  by_cases hsat : calls ≤ (st.filter fun c => decide (now - period < c)).length
  · simp only [rl_acquire, rl_check, rl_append, hsat, if_true]
    cases hw : (st.filter fun c => decide (now - period < c)) with
    | nil => rw [hw] at hsat; simp at hsat; omega
    | cons h0 tl =>
      have hm : h0 ∈ st.filter (fun c => decide (now - period < c)) := by
        rw [hw]; exact List.mem_cons_self _ _
      have h1 : now - period < h0 := of_decide_eq_true (List.mem_filter.mp hm).2
      simp
      omega
  · simp [rl_acquire, rl_check, rl_append, hsat]

theorem rl_run_ge (calls : Nat) (period : Int) (hc : 0 < calls) :
    ∀ (ds : List Nat) (st : List Int) (now : Int) (x : Int),
      x ∈ rl_run calls period st now ds → now ≤ x := by
  intro ds
  induction ds with
  | nil => intro st now x hx; simp [rl_run] at hx
  | cons d ds ih =>
    intro st now x hx
    have hnow : now ≤ now + (d : Int) := by omega
    have hstep : now ≤ (rl_acquire calls period st (now + (d : Int))).2 :=
      le_trans hnow (rl_acquire_ge calls period hc st (now + (d : Int)))
    simp only [rl_run] at hx
    rcases List.mem_cons.mp hx with h | h
    · omega
    · exact le_trans hstep (ih _ _ x h)

theorem filter_length_eq_window (period : Int) (st : List Int) (now arrival : Int)
    (hle : ∀ x ∈ st, x ≤ now) (hna : now ≤ arrival) :
    (st.filter fun c => decide (arrival - period < c)).length
      = rl_window_count period st arrival := by
  rw [(List.countP_eq_length_filter _ _).symm, rl_window_count]
  apply countP_congr_mem
  intro x hx
  have hxa : decide (x ≤ arrival) = true :=
    decide_eq_true (le_trans (hle x hx) hna)
  simp [wp, hxa]

theorem rl_aux (calls : Nat) (period : Int) (hc : 0 < calls) :
    ∀ (ds : List Nat) (st : List Int) (now : Int),
      (∀ x ∈ st, x ≤ now) →
      (∀ v, rl_window_count period st v ≤ calls) →
      ∀ v, rl_window_count period (st ++ rl_run calls period st now ds) v ≤ calls := by
  intro ds
  induction ds with
  | nil => intro st now _ hbound v; simpa [rl_run, rl_window_count] using hbound v
  | cons d ds ih =>
    intro st now hle hbound v
    set arrival := now + (d : Int) with harr
    set w := st.filter (fun c => decide (arrival - period < c)) with hw
    set t := (rl_acquire calls period st arrival).2 with ht
    have hna : now ≤ arrival := by omega
    have hat : arrival ≤ t := rl_acquire_ge calls period hc st arrival
    have hfst : (rl_acquire calls period st arrival).1 = w ++ [t] :=
      rl_acquire_fst calls period st arrival
    have hwlen : w.length ≤ calls := by
      rw [hw, filter_length_eq_window period st now arrival hle hna]
      exact hbound arrival
    have hle' : ∀ x ∈ w ++ [t], x ≤ t := by
      intro x hx
      rcases List.mem_append.mp hx with h | h
      · have hxs : x ∈ st := (List.mem_filter.mp (hw ▸ h)).1
        exact le_trans (hle x hxs) (le_trans hna hat)
      · simp at h; omega
    have hbound' : ∀ u, rl_window_count period (w ++ [t]) u ≤ calls := by
      intro u
      rw [rl_window_count, List.countP_append]
      by_cases hpt : wp period u t = true
      · have hcnt1 : List.countP (wp period u) [t] ≤ 1 := List.countP_le_length _
        by_cases hsat : calls ≤ w.length
        · have hne : w ≠ [] := by
            intro hnil
            rw [hnil] at hsat
            simp at hsat
            omega
          obtain ⟨h0, tl, hwc⟩ := List.exists_cons_of_ne_nil hne
          have htw : t = w.headD arrival + period := by
            rw [ht]
            simp only [rl_acquire, rl_check, rl_append]
            rw [← hw, if_pos hsat]
          have ht0 : t = h0 + period := by rw [htw, hwc]; rfl
          have hh0w : h0 ∈ w := by rw [hwc]; exact List.mem_cons_self _ _
          have hv : t ≤ u := by
            have := hpt
            simp only [wp, Bool.and_eq_true, decide_eq_true_eq] at this
            exact this.2
          have hh0 : wp period u h0 = false := by
            simp only [wp, Bool.and_eq_false_iff, decide_eq_false_iff_not]
            left
            omega
          have hcnt : w.countP (wp period u) < w.length :=
            countP_lt_length_of_mem w _ h0 hh0w hh0
          omega
        · have h1 : w.countP (wp period u) ≤ w.length := List.countP_le_length _
          omega
      · have h0 : List.countP (wp period u) [t] = 0 := by
          simp only [Bool.not_eq_true] at hpt
          simp [List.countP_cons, hpt]
        have h1 : w.countP (wp period u) ≤ st.countP (wp period u) := by
          rw [hw, List.countP_filter]
          exact countP_and_le st _ _
        have h2 := hbound u
        rw [rl_window_count] at h2
        omega
    have hIH := ih (w ++ [t]) t hle' hbound'
    simp only [rl_run]
    rw [← harr, ← ht, hfst]
    by_cases hva : arrival ≤ v
    · have hst : st.countP (wp period v) = w.countP (wp period v) := by
        rw [hw, List.countP_filter]
        apply countP_congr_mem
        intro x hx
        by_cases hwp : wp period v x = true
        · have hd : decide (arrival - period < x) = true := by
            simp only [wp, Bool.and_eq_true, decide_eq_true_eq] at hwp
            exact decide_eq_true (by omega)
          simp [hwp, hd]
        · simp only [Bool.not_eq_true] at hwp
          simp [hwp]
      have hIHv := hIH v
      rw [rl_window_count, List.countP_append, List.countP_append,
          List.countP_cons, List.countP_nil] at hIHv
      rw [rl_window_count, List.countP_append, List.countP_cons, hst]
      omega
    · have hvt : wp period v t = false := by
        simp only [wp, Bool.and_eq_false_iff, decide_eq_false_iff_not]
        right
        omega
      have hrest : (rl_run calls period (w ++ [t]) t ds).countP (wp period v) = 0 := by
        rw [List.countP_eq_zero]
        intro x hx
        have hxt : t ≤ x := rl_run_ge calls period hc ds (w ++ [t]) t x hx
        simp only [wp, Bool.and_eq_true, decide_eq_true_eq, not_and]
        intro _
        omega
      have h2 := hbound v
      rw [rl_window_count] at h2
      rw [rl_window_count, List.countP_append, List.countP_cons, hvt, hrest]
      simp
      omega

/-- C8 (counterexample). The `calls_made` list is shared by all workers
with no mutex, and one `wrapper` call is two separate accesses
(filter/check, then append).  With calls=1, period=60, two workers that
both run the filter/check at time 0 before either appends both pass the
check and both append timestamp 0: the shared list becomes [0, 0] and
the trailing 60-second window ending at 0 holds 2 acquisitions — more
than `calls`. -/
theorem C8_counterexample :
    (rl_check 1 60 [] 0).2 = 0
    ∧ (rl_check 1 60 (rl_check 1 60 [] 0).1 0).2 = 0
    ∧ rl_append (rl_append (rl_check 1 60 (rl_check 1 60 [] 0).1 0).1
        (rl_check 1 60 [] 0).2) (rl_check 1 60 (rl_check 1 60 [] 0).1 0).2
      = [0, 0]
    ∧ rl_window_count 60 [0, 0] 0 = 2
    ∧ ¬ (rl_window_count 60 [0, 0] 0 ≤ 1) := by
  refine ⟨by decide, by decide, by decide, by decide, by decide⟩

/-- C8 (amended). When acquisitions are serialized (each wrapper call's
filter/check and append run back to back, with the next call arriving
only after the previous returned — e.g. a single worker, or workers
under an external lock), the sliding-window bound holds: no trailing
`period`-second window ever contains more than `calls` acquisition
timestamps; and a saturated call sleeps until the oldest in-window
timestamp leaves the window, acquiring at `calls_made[0] + period`
rather than being rejected. -/
theorem C8_rate_limit_serialized (calls : Nat) (period : Int) (t0 : Int)
    (ds : List Nat) (hc : 0 < calls) :
    (∀ v, rl_window_count period (rl_run calls period [] t0 ds) v ≤ calls)
    ∧ (∀ (st : List Int) (now : Int),
        calls ≤ (st.filter fun c => decide (now - period < c)).length →
        (rl_acquire calls period st now).2
          = (st.filter fun c => decide (now - period < c)).headD now + period) := by
  constructor
  · intro v
    have h := rl_aux calls period hc ds [] t0 (by simp)
      (by intro u; simp [rl_window_count]) v
    simpa using h
  · intro st now hsat
    simp only [rl_acquire, rl_check, rl_append]
    rw [if_pos hsat]

/-- Witness for the amended C8: two immediate acquisitions under
calls=1/period=60 — the run produces [0, 60] and each window holds at
most one timestamp; a saturated acquire on [0] at time 0 returns 60. -/
theorem C8_rate_limit_serialized_witness :
    (rl_window_count 60 (rl_run 1 60 [] 0 [0, 0]) 60 ≤ 1)
    ∧ (rl_acquire 1 60 [0] 0).2
        = (([0] : List Int).filter fun c => decide ((0:Int) - 60 < c)).headD 0 + 60 :=
  ⟨(C8_rate_limit_serialized 1 60 0 [0, 0] (by decide)).1 60,
   (C8_rate_limit_serialized 1 60 0 [0, 0] (by decide)).2 [0] 0 (by decide)⟩

end InboxZero
